import Mathlib

/-!
Shallow embedding of the forecasting backend (`backend/server.py`).

Numeric values are modelled as exact rationals (`ℚ`): the Python code works
with IEEE doubles, but every claim under study is about the ideal arithmetic
the code expresses (thresholds, means, branch structure), not about rounding.
The external statistical model-fitting collaborators (`ETSModel`, `ARIMA`
from statsmodels) are modelled as an abstract environment `FitEnv`: a fit
either fails (the Python code raises and the caller falls through to the
next model in the chain) or returns a fitted model exposing a forecast
function and residuals.  Square roots (used by `np.std`, `pandas.std` and
RMSE) are modelled by an explicit parameter `sqrtFn : ℚ → ℚ` so that every
definition stays executable; no claim depends on properties of the square
root itself.
-/

namespace Forecasting

/-- A first-of-month date, as produced by `pd.to_datetime` on the input CSVs
and by `datetime(2025, i+1, 1)` for forecast rows. -/
structure Date where
  year : Int
  month : Nat
deriving DecidableEq, Repr

/-- One row of the historical actuals table (`Sample_data_N.csv` after
`dropna`): the four-level hierarchy path, descriptive attributes, a date and
the `Actual` measure. -/
structure SampleRow where
  profile : String
  line_item : String
  budget_unit : String
  token : String
  body : String
  site : String
  lineup : String
  institutions : String
  date : Date
  actual : ℚ
deriving DecidableEq, Repr

/-- One row of the plan table (`Plan Number.csv` after `dropna` on
`Profile`, `Lineup`, `DATE`, `Plan`); only the columns the code demonstrably
requires are modelled. -/
structure PlanRow where
  profile : String
  lineup : String
  date : Date
  plan : ℚ
deriving DecidableEq, Repr

/-- A row of the combined dataset built by `generate_forecasts`
(`pd.concat` of sample, plan and forecast frames).  Columns that a
contributing frame does not populate hold `NaN` in the dataframe; absence is
modelled as `none`. -/
structure URow where
  profile : Option String
  line_item : Option String
  budget_unit : Option String
  token : Option String
  body : Option String
  site : Option String
  lineup : String
  institutions : Option String
  date : Date
  actual : Option ℚ
  plan : Option ℚ
  forecast : Option ℚ
  synthetic_actual : Option ℚ
deriving DecidableEq, Repr

/-- A fitted statistical model, as returned by the external collaborator:
`forecast h` is the point forecast for `h` future periods and `resid` the
in-sample residuals (`fitted_model.resid`). -/
structure FittedModel where
  forecast : Nat → List ℚ
  resid : List ℚ

/-- The external model-fitting environment: `ets values` models
`ETSModel(values, trend='add', seasonal=None).fit()` and `arima values`
models `ARIMA(values, order=(1,1,1)).fit()`; `none` models a raised
exception. -/
structure FitEnv where
  ets : List ℚ → Option FittedModel
  arima : List ℚ → Option FittedModel

/-- Arithmetic mean, `pandas Series.mean()`. -/
def mean (xs : List ℚ) : ℚ := xs.sum / xs.length

/-- Sample variance with `ddof = 1`, the square of `pandas Series.std()`. -/
def sampleVar (xs : List ℚ) : ℚ :=
  (xs.map (fun x => (x - mean xs) ^ 2)).sum / ((xs.length : ℚ) - 1)

/-- Population variance with `ddof = 0`, the square of `np.std`. -/
def popVar (xs : List ℚ) : ℚ :=
  (xs.map (fun x => (x - mean xs) ^ 2)).sum / (xs.length : ℚ)

/-- sklearn `mean_absolute_percentage_error` (epsilon guard against a zero
denominator elided; no claim involves zero actuals). -/
def mean_absolute_percentage_error (yTrue yPred : List ℚ) : ℚ :=
  mean (List.zipWith (fun a f => |a - f| / |a|) yTrue yPred)

/-- sklearn `mean_squared_error`. -/
def mean_squared_error (yTrue yPred : List ℚ) : ℚ :=
  mean (List.zipWith (fun a f => (a - f) ^ 2) yTrue yPred)

/-- Chronological order on first-of-month dates. -/
def dateLe (a b : Date) : Prop :=
  a.year < b.year ∨ (a.year = b.year ∧ a.month ≤ b.month)

instance : DecidableRel dateLe := fun a b => by unfold dateLe; infer_instance

/-- Chronological order on sample rows, the key of `sort_values('DATE')`. -/
def rowDateLe (a b : SampleRow) : Prop := dateLe a.date b.date

instance : DecidableRel rowDateLe := fun a b => by unfold rowDateLe; infer_instance

/-- `data[data['Lineup'] == lineup].sort_values('DATE')`: the entity's rows
in chronological order.  The comparison sort is modelled by insertion sort;
pandas' default quicksort realises the same key order (the relative order of
rows with equal dates is unspecified by both). -/
def lineup_series (data : List SampleRow) (lineup : String) : List SampleRow :=
  List.insertionSort rowDateLe (data.filter (fun r => r.lineup = lineup))

/-- The model fallback chain of `generate_forecast_for_lineup`, acting on
the chronologically sorted value series: mean if fewer than 3 observations,
else ETS (clamped to ≥ 0), else ARIMA (clamped to ≥ 0), else the mean of
the last `min(3, length)` observations (`tail(window).mean()`, not
clamped). -/
def forecast_chain (env : FitEnv) (values : List ℚ) (periods : Nat) : List ℚ :=
  if values.length < 3 then
    List.replicate periods (mean values)
  else
    match env.ets values with
    | some m => (m.forecast periods).map (fun x => max 0 x)
    | none =>
      match env.arima values with
      | some m => (m.forecast periods).map (fun x => max 0 x)
      | none =>
        let window := min 3 values.length
        List.replicate periods (mean (values.drop (values.length - window)))

/-- `generate_forecast_for_lineup(data, lineup, periods)`. -/
def generate_forecast_for_lineup (env : FitEnv) (data : List SampleRow)
    (lineup : String) (periods : Nat) : List ℚ :=
  forecast_chain env ((lineup_series data lineup).map (fun r => r.actual)) periods

/-- `generate_seasonal_actuals_for_lineup(data, lineup)`: for each calendar
month 1..12, the mean of the entity's actuals falling in that month, or the
mean of the whole series when the month has no observation. -/
def generate_seasonal_actuals_for_lineup (data : List SampleRow) (lineup : String) :
    List ℚ :=
  let ld := lineup_series data lineup
  (List.range 12).map (fun i =>
    let monthObs := (ld.filter (fun r => r.date.month = i + 1)).map (fun r => r.actual)
    if 0 < monthObs.length then mean monthObs
    else mean (ld.map (fun r => r.actual)))

/-- The risk classification applied to a backtest MAPE inside
`generate_forecast_with_confidence` (`< 0.1` low, `< 0.2` medium, else
high). -/
def risk_level_of_mape (mape : ℚ) : String :=
  if mape < 1 / 10 then "low" else if mape < 1 / 5 then "medium" else "high"

/-- The `accuracy_metrics` dictionary; the degenerate paths omit
`test_points`. -/
structure AccuracyMetrics where
  rmse : ℚ
  mape : ℚ
  test_points : Option Nat
deriving Repr

/-- The diagnostics dictionary returned by the backtest evaluator;
`accuracy_metrics` is `none` when the code leaves the dictionary empty. -/
structure Diagnostics where
  model_type : String
  accuracy_metrics : Option AccuracyMetrics
  risk_level : String
deriving Repr

/-- The four components returned by `generate_forecast_with_confidence`. -/
structure ForecastResult where
  forecasts : List ℚ
  lower_bounds : List ℚ
  upper_bounds : List ℚ
  diagnostics : Diagnostics

/-- The backtest evaluator of `generate_forecast_with_confidence`, acting on
the chronologically sorted value series.  Fewer than 6 observations: mean
forecast with `±1.96×std` bounds and placeholder diagnostics.  Otherwise an
80/20 split (`split = int(0.8 × n)`), diagnostics from a model fitted on the
prefix and scored on the suffix, and a final forecast refitted on the full
series; ETS first, ARIMA on any ETS failure, simple mean when both fail. -/
def evaluate_series (sqrtFn : ℚ → ℚ) (env : FitEnv) (values : List ℚ)
    (periods : Nat) : ForecastResult :=
  let n := values.length
  if n < 6 then
    let m := mean values
    let s := if 1 < n then sqrtFn (sampleVar values) else m * (1 / 10)
    { forecasts := List.replicate periods m
      lower_bounds := List.replicate periods (max 0 (m - 196 / 100 * s))
      upper_bounds := List.replicate periods (m + 196 / 100 * s)
      diagnostics :=
        { model_type := "simple_mean"
          accuracy_metrics := some { rmse := s, mape := 1 / 10, test_points := none }
          risk_level := "high" } }
  else
    let split := 8 * n / 10
    let train := values.take split
    let test := values.drop split
    match env.ets train, env.ets values with
    | some fitted, some full =>
      let acc : Option AccuracyMetrics :=
        if 0 < test.length then
          some { rmse := sqrtFn (mean_squared_error test (fitted.forecast test.length))
                 mape := mean_absolute_percentage_error test (fitted.forecast test.length)
                 test_points := some test.length }
        else none
      let risk :=
        if 0 < test.length then
          risk_level_of_mape (mean_absolute_percentage_error test (fitted.forecast test.length))
        else "medium"
      let fs := full.forecast periods
      let stdErr :=
        if 1 < fitted.resid.length then sqrtFn (popVar fitted.resid)
        else sqrtFn (popVar values) * (1 / 10)
      { forecasts := fs.map (fun f => max 0 f)
        lower_bounds := fs.map (fun f => max 0 (f - 196 / 100 * stdErr))
        upper_bounds := fs.map (fun f => f + 196 / 100 * stdErr)
        diagnostics :=
          { model_type := "exponential_smoothing"
            accuracy_metrics := acc
            risk_level := risk } }
    | _, _ =>
      match env.arima train, env.arima values with
      | some fitted, some full =>
        let acc : Option AccuracyMetrics :=
          if 0 < test.length then
            some { rmse := sqrtFn (mean_squared_error test (fitted.forecast test.length))
                   mape := mean_absolute_percentage_error test (fitted.forecast test.length)
                   test_points := some test.length }
          else none
        let risk :=
          if 0 < test.length then
            risk_level_of_mape (mean_absolute_percentage_error test (fitted.forecast test.length))
          else "medium"
        let fs := full.forecast periods
        let stdErr := sqrtFn (popVar values) * (15 / 100)
        { forecasts := fs.map (fun f => max 0 f)
          lower_bounds := fs.map (fun f => max 0 (f - 196 / 100 * stdErr))
          upper_bounds := fs.map (fun f => f + 196 / 100 * stdErr)
          diagnostics :=
            { model_type := "arima"
              accuracy_metrics := acc
              risk_level := risk } }
      | _, _ =>
        let m := mean values
        let s := sqrtFn (sampleVar values)
        { forecasts := List.replicate periods m
          lower_bounds := List.replicate periods (max 0 (m - 196 / 100 * s))
          upper_bounds := List.replicate periods (m + 196 / 100 * s)
          diagnostics :=
            { model_type := "simple_mean"
              accuracy_metrics := some { rmse := s, mape := 2 / 10, test_points := none }
              risk_level := "high" } }

/-- `generate_forecast_with_confidence(data, lineup, periods)`: select the
entity's rows, sort chronologically, and run the backtest evaluator on the
value series. -/
def generate_forecast_with_confidence (sqrtFn : ℚ → ℚ) (env : FitEnv)
    (data : List SampleRow) (lineup : String) (periods : Nat) : ForecastResult :=
  evaluate_series sqrtFn env ((lineup_series data lineup).map (fun r => r.actual)) periods

/-- Embedding of a historical actual row into the combined frame: `Plan`,
`Forecast` and `Synthetic_Actual` are set to `NaN`. -/
def sampleToURow (r : SampleRow) : URow :=
  { profile := some r.profile, line_item := some r.line_item
    budget_unit := some r.budget_unit, token := some r.token
    body := some r.body, site := some r.site, lineup := r.lineup
    institutions := some r.institutions, date := r.date
    actual := some r.actual, plan := none, forecast := none
    synthetic_actual := none }

/-- Embedding of a plan row into the combined frame: `Actual`, `Forecast`
and `Synthetic_Actual` are set to `NaN`; columns absent from the plan table
are `NaN` after `pd.concat` aligns columns. -/
def planToURow (r : PlanRow) : URow :=
  { profile := some r.profile, line_item := none, budget_unit := none
    token := none, body := none, site := none, lineup := r.lineup
    institutions := none, date := r.date
    actual := none, plan := some r.plan, forecast := none
    synthetic_actual := none }

/-- The forecast row built for position `i` of the 2025 horizon
(`forecast_date = datetime(2025, i+1, 1)`), with hierarchy attributes taken
from the entity's first observed row. -/
def forecastURow (first : SampleRow) (lineup : String) (i : Nat) (f s : ℚ) : URow :=
  { profile := some first.profile, line_item := some first.line_item
    budget_unit := some first.budget_unit, token := some first.token
    body := some first.body, site := some first.site, lineup := lineup
    institutions := some first.institutions, date := ⟨2025, i + 1⟩
    actual := none, plan := none, forecast := some f
    synthetic_actual := some s }

/-- The forecast rows appended for one lineup by the loop in
`generate_forecasts`: `enumerate(zip(forecasts, synthetic_actuals))` turned
into rows dated `2025-(i+1)-01`; an entity absent from the data contributes
nothing (the `continue` branch). -/
def forecast_rows_for (env : FitEnv) (data : List SampleRow) (lineup : String) :
    List URow :=
  match data.filter (fun r => r.lineup = lineup) with
  | [] => []
  | first :: _ =>
    let fs := generate_forecast_for_lineup env data lineup 12
    let ss := generate_seasonal_actuals_for_lineup data lineup
    (List.zip fs ss).enum.map (fun p => forecastURow first lineup p.1 p.2.1 p.2.2)

/-- `sample_data['Lineup'].unique()`: the distinct lineups in order of first
appearance. -/
def unique_first (l : List String) : List String :=
  l.foldl (fun acc x => if x ∈ acc then acc else acc ++ [x]) []

/-- The key order of `combined_data.sort_values(['Lineup', 'DATE'])`:
lineups in lexicographic string order (compared character by character, as
Python compares strings), ties broken chronologically. -/
def unified_le (a b : URow) : Prop :=
  a.lineup.data < b.lineup.data ∨ (a.lineup = b.lineup ∧ dateLe a.date b.date)

instance : DecidableRel unified_le := fun a b => by unfold unified_le; infer_instance

instance : IsTrans URow unified_le where
  trans := by
    intro a b c hab hbc
    unfold unified_le at *
    rcases hab with h | ⟨h, hd⟩ <;> rcases hbc with h2 | ⟨h2, hd2⟩
    · exact Or.inl (h.trans h2)
    · exact Or.inl (congrArg String.data h2 ▸ h)
    · exact Or.inl (congrArg String.data h ▸ h2)
    · refine Or.inr ⟨h.trans h2, ?_⟩
      unfold dateLe at *
      rcases hd with hy | ⟨hy, hm⟩ <;> rcases hd2 with hy2 | ⟨hy2, hm2⟩
      · exact Or.inl (hy.trans hy2)
      · exact Or.inl (hy2 ▸ hy)
      · exact Or.inl (hy ▸ hy2)
      · exact Or.inr ⟨hy.trans hy2, hm.trans hm2⟩

instance : IsTotal URow unified_le where
  total := by
    intro a b
    unfold unified_le
    rcases lt_trichotomy a.lineup.data b.lineup.data with h | h | h
    · exact Or.inl (Or.inl h)
    · have hstr : a.lineup = b.lineup := String.ext h
      have : dateLe a.date b.date ∨ dateLe b.date a.date := by
        unfold dateLe
        rcases lt_trichotomy a.date.year b.date.year with hy | hy | hy
        · exact Or.inl (Or.inl hy)
        · rcases le_total a.date.month b.date.month with hm | hm
          · exact Or.inl (Or.inr ⟨hy, hm⟩)
          · exact Or.inr (Or.inr ⟨hy.symm, hm⟩)
        · exact Or.inr (Or.inl hy)
      rcases this with hd | hd
      · exact Or.inl (Or.inr ⟨hstr, hd⟩)
      · exact Or.inr (Or.inr ⟨hstr.symm, hd⟩)
    · exact Or.inr (Or.inl h)

/-- `generate_forecasts` (the `/api/forecast/generate` pipeline): build the
per-lineup forecast rows, concatenate the sample, plan and forecast frames,
and sort by `(Lineup, DATE)`.  The comparison sort is modelled by insertion
sort; pandas' default quicksort realises the same key order. -/
def generate_forecasts (env : FitEnv) (sample : List SampleRow)
    (plan : List PlanRow) : List URow :=
  let lineups := unique_first (sample.map (fun r => r.lineup))
  let forecastRows := lineups.flatMap (fun L => forecast_rows_for env sample L)
  List.insertionSort unified_le
    (sample.map sampleToURow ++ plan.map planToURow ++ forecastRows)

/-- The (entity, date) key of a combined row. -/
def pairKey (r : URow) : String × Date := (r.lineup, r.date)

/-- `get_filtered_data`: apply each of the five optional equality filters in
turn.  Python's `if profile:` treats both `None` and the empty string as
"no filter". -/
def get_filtered_data (profile line_item body site lineup : Option String)
    (rows : List URow) : List URow :=
  let d1 := match profile with
    | none => rows
    | some s => if s = "" then rows else rows.filter (fun r => r.profile = some s)
  let d2 := match line_item with
    | none => d1
    | some s => if s = "" then d1 else d1.filter (fun r => r.line_item = some s)
  let d3 := match body with
    | none => d2
    | some s => if s = "" then d2 else d2.filter (fun r => r.body = some s)
  let d4 := match site with
    | none => d3
    | some s => if s = "" then d3 else d3.filter (fun r => r.site = some s)
  match lineup with
    | none => d4
    | some s => if s = "" then d4 else d4.filter (fun r => r.lineup = s)

/-! Concrete fixtures used to exercise the definitions on explicit inputs. -/

/-- A sample row with fixed descriptive attributes. -/
def mkRow (lineup : String) (y : Int) (m : Nat) (a : ℚ) : SampleRow :=
  ⟨"P", "LI", "BU", "T", "B", "S", lineup, "I", ⟨y, m⟩, a⟩

/-- An environment in which every model fit raises. -/
def env0 : FitEnv := ⟨fun _ => none, fun _ => none⟩

/-- A fitted model forecasting the constant `c` with no residuals. -/
def constModel (c : ℚ) : FittedModel := ⟨fun h => List.replicate h c, []⟩

/-- An environment in which every ETS fit succeeds and forecasts the
constant `c`, while ARIMA raises. -/
def envConst (c : ℚ) : FitEnv := ⟨fun _ => some (constModel c), fun _ => none⟩

/-- Three observations of `-1` for entity `L`. -/
def dataNeg : List SampleRow :=
  [mkRow "L" 2020 1 (-1), mkRow "L" 2020 2 (-1), mkRow "L" 2020 3 (-1)]

/-- Two observations for entity `L`. -/
def dataTwo : List SampleRow := [mkRow "L" 2020 1 4, mkRow "L" 2020 2 6]

/-- Three non-negative observations for entity `L`. -/
def dataPos : List SampleRow :=
  [mkRow "L" 2020 1 1, mkRow "L" 2020 2 2, mkRow "L" 2020 3 3]

/-- One observation for entity `L`, in March. -/
def dataOne : List SampleRow := [mkRow "L" 2020 3 5]

/-- A six-point series whose 80/20 split holds out `[10, 10]`. -/
def valuesSix : List ℚ := [1, 2, 3, 4, 10, 10]

/-- One sample row and one plan row for `L` at distinct dates. -/
def sampleW : List SampleRow := [mkRow "L" 2020 1 5]

def planW : List PlanRow := [⟨"P", "L", ⟨2021, 1⟩, 7⟩]

/-- A plan row colliding with the sample row of `sampleW` at `(L, 2020-01)`. -/
def planC2 : List PlanRow := [⟨"P", "L", ⟨2020, 1⟩, 7⟩]

/-- Two entities whose insertion order (`B` first) is not lexicographic. -/
def sampleBA : List SampleRow := [mkRow "B" 2020 1 1, mkRow "A" 2020 1 1]

/-! Helper lemmas. -/

lemma mean_perm {l₁ l₂ : List ℚ} (h : l₁.Perm l₂) : mean l₁ = mean l₂ := by
  unfold mean
  rw [h.sum_eq, h.length_eq]

lemma mean_nonneg {xs : List ℚ} (h : ∀ x ∈ xs, 0 ≤ x) : 0 ≤ mean xs :=
  div_nonneg (List.sum_nonneg h) (Nat.cast_nonneg _)

lemma lineup_series_perm (data : List SampleRow) (L : String) :
    (lineup_series data L).Perm (data.filter (fun r => r.lineup = L)) :=
  List.perm_insertionSort _ _

lemma mem_lineup_series {data : List SampleRow} {L : String} {r : SampleRow}
    (h : r ∈ lineup_series data L) : r ∈ data ∧ r.lineup = L := by
  have h' := (lineup_series_perm data L).mem_iff.mp h
  have := List.mem_filter.mp h'
  exact ⟨this.1, by simpa using this.2⟩

lemma split_lt {n : Nat} (h : 0 < n) : 8 * n / 10 < n := by omega

/-- C9: running the filter with zero predicates supplied returns the stored
combined dataset unchanged. -/
theorem get_filtered_data_no_predicates (rows : List URow) :
    get_filtered_data none none none none none rows = rows := rfl

/-- C10: a predicate supplied as the empty string is treated exactly like an
absent predicate, for each of the five hierarchy fields. -/
theorem get_filtered_data_empty_string_no_constraint
    (p li b s l : Option String) (rows : List URow) :
    get_filtered_data (some "") li b s l rows = get_filtered_data none li b s l rows ∧
    get_filtered_data p (some "") b s l rows = get_filtered_data p none b s l rows ∧
    get_filtered_data p li (some "") s l rows = get_filtered_data p li none s l rows ∧
    get_filtered_data p li b (some "") l rows = get_filtered_data p li b none l rows ∧
    get_filtered_data p li b s (some "") rows = get_filtered_data p li b s none rows := by
  refine ⟨?_, ?_, ?_, ?_, ?_⟩ <;> simp [get_filtered_data]

/-- C7: for an entity with fewer than 3 observations, the fallback chain
returns the mean of all its historical values, repeated `periods` times. -/
theorem generate_forecast_for_lineup_lt_three (env : FitEnv)
    (data : List SampleRow) (L : String) (periods : Nat)
    (_h0 : 0 < (data.filter (fun r => r.lineup = L)).length)
    (h3 : (data.filter (fun r => r.lineup = L)).length < 3) :
    generate_forecast_for_lineup env data L periods =
      List.replicate periods
        (mean ((data.filter (fun r => r.lineup = L)).map (fun r => r.actual))) := by
  unfold generate_forecast_for_lineup forecast_chain
  have hlen : ((lineup_series data L).map (fun r => r.actual)).length =
      (data.filter (fun r => r.lineup = L)).length := by
    rw [List.length_map, (lineup_series_perm data L).length_eq]
  rw [if_pos (by rw [hlen]; exact h3)]
  congr 1
  exact mean_perm ((lineup_series_perm data L).map _)

/-- Witness for C7: two observations `4, 6` give the constant forecast
`mean [4, 6]`. -/
theorem generate_forecast_for_lineup_lt_three_witness :
    generate_forecast_for_lineup env0 dataTwo "L" 5 =
      List.replicate 5
        (mean ((dataTwo.filter (fun r => r.lineup = "L")).map (fun r => r.actual))) :=
  generate_forecast_for_lineup_lt_three env0 dataTwo "L" 5 (by decide) (by decide)

/-- C6: for a series with fewer than 6 observations the backtest evaluator
takes the degenerate path: forecast is the mean repeated, the interval is
`mean ± 1.96 × std` (with `std` replaced by `0.1 × mean` for a single
point, and the lower bound clamped at 0), and the diagnostics report
`simple_mean`, `high` risk and the fixed placeholder `mape = 0.1`. -/
theorem evaluate_series_degenerate (sqrtFn : ℚ → ℚ) (env : FitEnv)
    (values : List ℚ) (periods : Nat)
    (_h0 : 0 < values.length) (h6 : values.length < 6) :
    evaluate_series sqrtFn env values periods =
      { forecasts := List.replicate periods (mean values)
        lower_bounds := List.replicate periods
          (max 0 (mean values - 196 / 100 *
            (if 1 < values.length then sqrtFn (sampleVar values)
             else mean values * (1 / 10))))
        upper_bounds := List.replicate periods
          (mean values + 196 / 100 *
            (if 1 < values.length then sqrtFn (sampleVar values)
             else mean values * (1 / 10)))
        diagnostics :=
          { model_type := "simple_mean"
            accuracy_metrics := some
              { rmse := if 1 < values.length then sqrtFn (sampleVar values)
                        else mean values * (1 / 10)
                mape := 1 / 10
                test_points := none }
            risk_level := "high" } } := by
  unfold evaluate_series
  rw [if_pos h6]

/-- Witness for C6: a single observation `5` takes the `0.1 × mean`
branch. -/
theorem evaluate_series_degenerate_witness :
    evaluate_series id env0 [5] 3 =
      { forecasts := List.replicate 3 (mean [5])
        lower_bounds := List.replicate 3
          (max 0 (mean [5] - 196 / 100 *
            (if 1 < ([5] : List ℚ).length then id (sampleVar [5])
             else mean [5] * (1 / 10))))
        upper_bounds := List.replicate 3
          (mean [5] + 196 / 100 *
            (if 1 < ([5] : List ℚ).length then id (sampleVar [5])
             else mean [5] * (1 / 10)))
        diagnostics :=
          { model_type := "simple_mean"
            accuracy_metrics := some
              { rmse := if 1 < ([5] : List ℚ).length then id (sampleVar [5])
                        else mean [5] * (1 / 10)
                mape := 1 / 10
                test_points := none }
            risk_level := "high" } } :=
  evaluate_series_degenerate id env0 [5] 3 (by decide) (by decide)

/-- The fallback chain never produces a negative value when every
historical observation is non-negative: the ETS and ARIMA stages clamp at
0, and both mean fallbacks average non-negative values. -/
lemma forecast_chain_nonneg (env : FitEnv) (values : List ℚ) (periods : Nat)
    (hpos : ∀ x ∈ values, 0 ≤ x) :
    ∀ y ∈ forecast_chain env values periods, 0 ≤ y := by
  intro y hy
  unfold forecast_chain at hy
  split at hy
  · rw [List.eq_of_mem_replicate hy]
    exact mean_nonneg hpos
  · split at hy
    · obtain ⟨x, _, hx⟩ := List.mem_map.mp hy
      rw [← hx]
      exact le_max_left 0 x
    · split at hy
      · obtain ⟨x, _, hx⟩ := List.mem_map.mp hy
        rw [← hx]
        exact le_max_left 0 x
      · rw [List.eq_of_mem_replicate hy]
        exact mean_nonneg (fun x hx => hpos x (List.mem_of_mem_drop hx))

/-- C1 (amended): for an entity with at least 3 observations, all of them
non-negative, every value produced by the fallback chain is non-negative.
(The non-negative-history hypothesis is needed: the final mean fallback is
not clamped, see the counterexample.) -/
theorem generate_forecast_for_lineup_nonneg (env : FitEnv)
    (data : List SampleRow) (L : String) (periods : Nat)
    (_h3 : 3 ≤ (data.filter (fun r => r.lineup = L)).length)
    (hpos : ∀ r ∈ data, r.lineup = L → 0 ≤ r.actual) :
    ∀ y ∈ generate_forecast_for_lineup env data L periods, 0 ≤ y := by
  unfold generate_forecast_for_lineup
  refine forecast_chain_nonneg env _ periods ?_
  intro x hx
  obtain ⟨r, hr, hrx⟩ := List.mem_map.mp hx
  obtain ⟨hrd, hrl⟩ := mem_lineup_series hr
  rw [← hrx]
  exact hpos r hrd hrl

/-- Witness for C1: on a non-negative three-point history with every model
fit failing, the forecast value `mean [1, 2, 3]` is non-negative. -/
theorem generate_forecast_for_lineup_nonneg_witness :
    (0 : ℚ) ≤ mean [1, 2, 3] :=
  generate_forecast_for_lineup_nonneg env0 dataPos "L" 4
    (by decide) (by decide) (mean [1, 2, 3])
    (by simp [generate_forecast_for_lineup, forecast_chain, lineup_series,
      dataPos, mkRow, env0, List.insertionSort, List.orderedInsert,
      rowDateLe, dateLe])

/-- Counterexample to C1 as stated: with three observations of `-1` and
both model fits failing, the unclamped final fallback forecasts `-1 < 0`. -/
theorem generate_forecast_for_lineup_negative_output :
    generate_forecast_for_lineup env0 dataNeg "L" 2 = [-1, -1] ∧ (-1 : ℚ) < 0 := by
  constructor
  · unfold generate_forecast_for_lineup forecast_chain lineup_series
    norm_num [dataNeg, mkRow, env0, List.insertionSort, List.orderedInsert,
      rowDateLe, dateLe, mean, List.replicate]
  · norm_num

/-- The ETS branch of the backtest evaluator, fully described: diagnostics
come from the model fitted on the 80% prefix, the served forecast from the
model refitted on the full series. -/
lemma evaluate_series_ets (sqrtFn : ℚ → ℚ) (env : FitEnv) (values : List ℚ)
    (periods : Nat) (mt mf : FittedModel)
    (h6 : 6 ≤ values.length)
    (hets : env.ets (values.take (8 * values.length / 10)) = some mt)
    (hfull : env.ets values = some mf) :
    evaluate_series sqrtFn env values periods =
      { forecasts := (mf.forecast periods).map (fun f => max 0 f)
        lower_bounds := (mf.forecast periods).map (fun f =>
          max 0 (f - 196 / 100 *
            (if 1 < mt.resid.length then sqrtFn (popVar mt.resid)
             else sqrtFn (popVar values) * (1 / 10))))
        upper_bounds := (mf.forecast periods).map (fun f =>
          f + 196 / 100 *
            (if 1 < mt.resid.length then sqrtFn (popVar mt.resid)
             else sqrtFn (popVar values) * (1 / 10)))
        diagnostics :=
          { model_type := "exponential_smoothing"
            accuracy_metrics := some
              { rmse := sqrtFn (mean_squared_error
                  (values.drop (8 * values.length / 10))
                  (mt.forecast (values.drop (8 * values.length / 10)).length))
                mape := mean_absolute_percentage_error
                  (values.drop (8 * values.length / 10))
                  (mt.forecast (values.drop (8 * values.length / 10)).length)
                test_points := some (values.drop (8 * values.length / 10)).length }
            risk_level := risk_level_of_mape (mean_absolute_percentage_error
              (values.drop (8 * values.length / 10))
              (mt.forecast (values.drop (8 * values.length / 10)).length)) } } := by
  have hn : ¬ values.length < 6 := by omega
  have htest : 0 < (values.drop (8 * values.length / 10)).length := by
    rw [List.length_drop]
    have := split_lt (n := values.length) (by omega)
    omega
  simp only [evaluate_series, hets, hfull, if_neg hn, if_pos htest]

/-- C5: for a series of at least 6 observations (with the ETS fits
succeeding), the evaluator splits at `floor(0.8 × n)`, scores RMSE/MAPE
against the held-out suffix with the model fitted on the prefix only, and
serves the forecast of the model refitted on the full series. -/
theorem evaluate_series_backtest_split (sqrtFn : ℚ → ℚ) (env : FitEnv)
    (values : List ℚ) (periods : Nat) (mt mf : FittedModel)
    (h6 : 6 ≤ values.length)
    (hets : env.ets (values.take (8 * values.length / 10)) = some mt)
    (hfull : env.ets values = some mf) :
    values.take (8 * values.length / 10) ++
      values.drop (8 * values.length / 10) = values ∧
    (evaluate_series sqrtFn env values periods).forecasts =
      (mf.forecast periods).map (fun f => max 0 f) ∧
    (evaluate_series sqrtFn env values periods).diagnostics.accuracy_metrics =
      some
        { rmse := sqrtFn (mean_squared_error
            (values.drop (8 * values.length / 10))
            (mt.forecast (values.drop (8 * values.length / 10)).length))
          mape := mean_absolute_percentage_error
            (values.drop (8 * values.length / 10))
            (mt.forecast (values.drop (8 * values.length / 10)).length)
          test_points := some (values.drop (8 * values.length / 10)).length } ∧
    (evaluate_series sqrtFn env values periods).diagnostics.model_type =
      "exponential_smoothing" := by
  rw [evaluate_series_ets sqrtFn env values periods mt mf h6 hets hfull]
  exact ⟨List.take_append_drop _ _, rfl, rfl, rfl⟩

/-- Witness for C5 on a concrete six-point series with a constant-9 ETS
model. -/
theorem evaluate_series_backtest_split_witness :
    valuesSix.take (8 * valuesSix.length / 10) ++
      valuesSix.drop (8 * valuesSix.length / 10) = valuesSix ∧
    (evaluate_series id (envConst 9) valuesSix 2).forecasts =
      ((constModel 9).forecast 2).map (fun f => max 0 f) ∧
    (evaluate_series id (envConst 9) valuesSix 2).diagnostics.accuracy_metrics =
      some
        { rmse := id (mean_squared_error
            (valuesSix.drop (8 * valuesSix.length / 10))
            ((constModel 9).forecast (valuesSix.drop (8 * valuesSix.length / 10)).length))
          mape := mean_absolute_percentage_error
            (valuesSix.drop (8 * valuesSix.length / 10))
            ((constModel 9).forecast (valuesSix.drop (8 * valuesSix.length / 10)).length)
          test_points := some (valuesSix.drop (8 * valuesSix.length / 10)).length } ∧
    (evaluate_series id (envConst 9) valuesSix 2).diagnostics.model_type =
      "exponential_smoothing" :=
  evaluate_series_backtest_split id (envConst 9) valuesSix 2
    (constModel 9) (constModel 9) (by decide) rfl rfl

/-- C3 (amended): the reported risk level is the pure `<`-threshold
function of the reported backtest MAPE (`< 0.10` low, `< 0.20` medium,
else high); at exactly `0.10` and `0.20` the strict comparison resolves to
the higher-risk bucket (`medium`, resp. `high`). -/
theorem evaluate_series_risk_level (sqrtFn : ℚ → ℚ) (env : FitEnv)
    (values : List ℚ) (periods : Nat) (mt mf : FittedModel)
    (h6 : 6 ≤ values.length)
    (hets : env.ets (values.take (8 * values.length / 10)) = some mt)
    (hfull : env.ets values = some mf) :
    (∀ acc, (evaluate_series sqrtFn env values periods).diagnostics.accuracy_metrics =
        some acc →
      (evaluate_series sqrtFn env values periods).diagnostics.risk_level =
        risk_level_of_mape acc.mape) ∧
    (∀ m : ℚ, m < 1 / 10 → risk_level_of_mape m = "low") ∧
    (∀ m : ℚ, 1 / 10 ≤ m → m < 1 / 5 → risk_level_of_mape m = "medium") ∧
    (∀ m : ℚ, 1 / 5 ≤ m → risk_level_of_mape m = "high") := by
  refine ⟨?_, ?_, ?_, ?_⟩
  · rw [evaluate_series_ets sqrtFn env values periods mt mf h6 hets hfull]
    intro acc hacc
    obtain rfl : _ = acc := Option.some_injective _ hacc
    rfl
  · intro m hm
    unfold risk_level_of_mape
    rw [if_pos hm]
  · intro m hm1 hm2
    unfold risk_level_of_mape
    rw [if_neg (not_lt.mpr hm1), if_pos hm2]
  · intro m hm
    unfold risk_level_of_mape
    rw [if_neg (not_lt.mpr (le_trans (by norm_num) hm)), if_neg (not_lt.mpr hm)]

/-- Witness for C3: a MAPE of `0.05` is classified `low`. -/
theorem evaluate_series_risk_level_witness :
    risk_level_of_mape (1 / 20) = "low" :=
  (evaluate_series_risk_level id (envConst 9) valuesSix 2
    (constModel 9) (constModel 9) (by decide) rfl rfl).2.1 (1 / 20) (by norm_num)

/-- Counterexample to C3 as stated: a backtest MAPE of exactly `0.10`
(actuals `[10, 10]`, forecast `[9, 9]`) is classified `medium`, the
higher-risk of the two adjacent buckets, not the lower-risk one. -/
theorem risk_level_at_boundary :
    (evaluate_series id (envConst 9) valuesSix 1).diagnostics.accuracy_metrics =
      some { rmse := 1, mape := 1 / 10, test_points := some 2 } ∧
    (evaluate_series id (envConst 9) valuesSix 1).diagnostics.risk_level = "medium" ∧
    ("medium" : String) ≠ "low" := by
  have h := evaluate_series_ets id (envConst 9) valuesSix 1
    (constModel 9) (constModel 9) (by decide) rfl rfl
  rw [h]
  refine ⟨?_, ?_, by decide⟩
  · norm_num [valuesSix, constModel, mean_squared_error,
      mean_absolute_percentage_error, mean, List.zipWith, List.replicate]
  · norm_num [valuesSix, constModel, risk_level_of_mape,
      mean_absolute_percentage_error, mean, List.zipWith, List.replicate]

/-- C4: the seasonal generator returns exactly 12 values, January to
December; month `i + 1` gets the mean of the entity's observations in that
month, or the mean of its entire series when the month is unobserved. -/
theorem generate_seasonal_actuals_spec (data : List SampleRow) (L : String)
    (_hne : data.filter (fun r => r.lineup = L) ≠ []) :
    (generate_seasonal_actuals_for_lineup data L).length = 12 ∧
    ∀ i, i < 12 →
      ((data.filter (fun r => r.lineup = L)).filter
          (fun r => r.date.month = i + 1) ≠ [] →
        (generate_seasonal_actuals_for_lineup data L).getD i 0 =
          mean (((data.filter (fun r => r.lineup = L)).filter
            (fun r => r.date.month = i + 1)).map (fun r => r.actual))) ∧
      ((data.filter (fun r => r.lineup = L)).filter
          (fun r => r.date.month = i + 1) = [] →
        (generate_seasonal_actuals_for_lineup data L).getD i 0 =
          mean ((data.filter (fun r => r.lineup = L)).map (fun r => r.actual))) := by
  constructor
  · simp [generate_seasonal_actuals_for_lineup]
  · intro i hi
    have hgd : (generate_seasonal_actuals_for_lineup data L).getD i 0 =
        if 0 < (((lineup_series data L).filter
            (fun r => r.date.month = i + 1)).map (fun r => r.actual)).length then
          mean (((lineup_series data L).filter
            (fun r => r.date.month = i + 1)).map (fun r => r.actual))
        else mean ((lineup_series data L).map (fun r => r.actual)) := by
      unfold generate_seasonal_actuals_for_lineup
      rw [List.getD_eq_getElem?_getD, List.getElem?_map, List.getElem?_range hi]
      rfl
    have hperm : ((lineup_series data L).filter (fun r => r.date.month = i + 1)).Perm
        ((data.filter (fun r => r.lineup = L)).filter
          (fun r => r.date.month = i + 1)) :=
      (lineup_series_perm data L).filter _
    constructor
    · intro hne2
      rw [hgd, if_pos ?_]
      · exact mean_perm (hperm.map _)
      · rw [List.length_map, hperm.length_eq]
        exact List.length_pos.mpr hne2
    · intro hemp
      rw [hgd, if_neg ?_]
      · exact mean_perm ((lineup_series_perm data L).map _)
      · rw [List.length_map, hperm.length_eq, hemp]
        simp

/-- Witness for C4: with a single March observation, slot 2 (March) holds
the mean of exactly the March observations. -/
theorem generate_seasonal_actuals_spec_witness :
    (generate_seasonal_actuals_for_lineup dataOne "L").getD 2 0 =
      mean (((dataOne.filter (fun r => r.lineup = "L")).filter
        (fun r => r.date.month = 2 + 1)).map (fun r => r.actual)) :=
  ((generate_seasonal_actuals_spec dataOne "L" (by decide)).2 2 (by decide)).1
    (by decide)

lemma foldl_unique_nodup (l : List String) :
    ∀ acc : List String, acc.Nodup →
      (l.foldl (fun acc x => if x ∈ acc then acc else acc ++ [x]) acc).Nodup := by
  induction l with
  | nil => exact fun acc h => h
  | cons x xs ih =>
    intro acc h
    simp only [List.foldl_cons]
    apply ih
    by_cases hx : x ∈ acc
    · rw [if_pos hx]
      exact h
    · rw [if_neg hx]
      refine h.append (List.nodup_singleton x) ?_
      intro a ha hax
      rw [List.mem_singleton] at hax
      exact hx (hax ▸ ha)

lemma unique_first_nodup (l : List String) : (unique_first l).Nodup :=
  foldl_unique_nodup l [] List.nodup_nil

/-- The (entity, date) keys of one lineup's forecast rows: the fixed entity
paired with the months `1..k` of 2025. -/
lemma forecast_rows_for_pairs (env : FitEnv) (data : List SampleRow) (L : String) :
    ∃ k, (forecast_rows_for env data L).map pairKey =
      (List.range k).map (fun i => (L, (⟨2025, i + 1⟩ : Date))) := by
  unfold forecast_rows_for
  cases hfl : data.filter (fun r => r.lineup = L) with
  | nil => exact ⟨0, rfl⟩
  | cons first rest =>
    refine ⟨(List.zip (generate_forecast_for_lineup env data L 12)
      (generate_seasonal_actuals_for_lineup data L)).length, ?_⟩
    rw [List.map_map, List.enum_eq_zip_range]
    have hcomp : (pairKey ∘ fun p : Nat × (ℚ × ℚ) => forecastURow first L p.1 p.2.1 p.2.2) =
        (fun i => (L, (⟨2025, i + 1⟩ : Date))) ∘ Prod.fst := rfl
    rw [hcomp, ← List.map_map, List.map_fst_zip _ _ (by simp)]

lemma forecast_rows_pair_mem {env : FitEnv} {data : List SampleRow} {L : String}
    {p : String × Date} (hp : p ∈ (forecast_rows_for env data L).map pairKey) :
    p.1 = L ∧ p.2.year = 2025 := by
  obtain ⟨k, hk⟩ := forecast_rows_for_pairs env data L
  rw [hk] at hp
  obtain ⟨i, _, rfl⟩ := List.mem_map.mp hp
  exact ⟨rfl, rfl⟩

lemma forecast_rows_for_pairs_nodup (env : FitEnv) (data : List SampleRow)
    (L : String) : ((forecast_rows_for env data L).map pairKey).Nodup := by
  obtain ⟨k, hk⟩ := forecast_rows_for_pairs env data L
  rw [hk]
  refine (List.nodup_range k).map ?_
  intro a b hab
  have := congrArg (fun p : String × Date => p.2.month) hab
  simpa using this

/-- C2 (amended): provided the historical actual and plan inputs contain no
duplicate (entity, date) pair, within each source or across the two, and no
historical date falls in the forecast year 2025, every (entity, date) pair
carries exactly one record of the combined dataset. -/
theorem generate_forecasts_unique_keys (env : FitEnv) (sample : List SampleRow)
    (plan : List PlanRow)
    (hs : (sample.map (fun r => (r.lineup, r.date))).Nodup)
    (hp : (plan.map (fun r => (r.lineup, r.date))).Nodup)
    (hsp : ∀ r ∈ sample, ∀ q ∈ plan, r.lineup ≠ q.lineup ∨ r.date ≠ q.date)
    (hsy : ∀ r ∈ sample, r.date.year ≠ 2025)
    (hpy : ∀ q ∈ plan, q.date.year ≠ 2025) :
    ((generate_forecasts env sample plan).map pairKey).Nodup := by
  have hA : (sample.map sampleToURow).map pairKey =
      sample.map (fun r => (r.lineup, r.date)) := by
    rw [List.map_map]
    rfl
  have hB : (plan.map planToURow).map pairKey =
      plan.map (fun r => (r.lineup, r.date)) := by
    rw [List.map_map]
    rfl
  have hC : ((unique_first (sample.map fun r => r.lineup)).flatMap
        (fun L => forecast_rows_for env sample L)).map pairKey =
      (unique_first (sample.map fun r => r.lineup)).flatMap
        (fun L => (forecast_rows_for env sample L).map pairKey) :=
    List.map_flatMap _ _ _
  have hCnd : (((unique_first (sample.map fun r => r.lineup)).flatMap
      (fun L => forecast_rows_for env sample L)).map pairKey).Nodup := by
    rw [hC, List.nodup_flatMap]
    constructor
    · exact fun L _ => forecast_rows_for_pairs_nodup env sample L
    · have hnd := unique_first_nodup (sample.map fun r => r.lineup)
      refine hnd.imp ?_
      intro L L' hne
      intro p hpL hpL'
      exact hne ((forecast_rows_pair_mem hpL).1 ▸ (forecast_rows_pair_mem hpL').1 ▸ rfl)
  have hnd : (((sample.map sampleToURow ++ plan.map planToURow) ++
      (unique_first (sample.map fun r => r.lineup)).flatMap
        (fun L => forecast_rows_for env sample L)).map pairKey).Nodup := by
    rw [List.map_append, List.map_append]
    refine List.Nodup.append (List.Nodup.append ?_ ?_ ?_) hCnd ?_
    · rw [hA]; exact hs
    · rw [hB]; exact hp
    · rw [hA, hB]
      intro p hpA hpB
      obtain ⟨r, hr, rfl⟩ := List.mem_map.mp hpA
      obtain ⟨q, hq, hqe⟩ := List.mem_map.mp hpB
      rcases hsp r hr q hq with h | h
      · exact h (congrArg Prod.fst hqe).symm
      · exact h (congrArg Prod.snd hqe).symm
    · intro p hpAB hpC
      have hyear : p.2.year ≠ 2025 := by
        rcases List.mem_append.mp hpAB with hpA | hpB
        · rw [hA] at hpA
          obtain ⟨r, hr, rfl⟩ := List.mem_map.mp hpA
          exact hsy r hr
        · rw [hB] at hpB
          obtain ⟨q, hq, rfl⟩ := List.mem_map.mp hpB
          exact hpy q hq
      rw [hC] at hpC
      obtain ⟨L, _, hpL⟩ := List.mem_flatMap.mp hpC
      exact hyear (forecast_rows_pair_mem hpL).2
  have hperm : ((generate_forecasts env sample plan).map pairKey).Perm
      (((sample.map sampleToURow ++ plan.map planToURow) ++
        (unique_first (sample.map fun r => r.lineup)).flatMap
          (fun L => forecast_rows_for env sample L)).map pairKey) := by
    unfold generate_forecasts
    exact (List.perm_insertionSort _ _).map _
  exact hperm.nodup_iff.mpr hnd

/-- Witness for C2 on collision-free inputs: one actual row at
`(L, 2020-01)` and one plan row at `(L, 2021-01)`. -/
theorem generate_forecasts_unique_keys_witness :
    ((generate_forecasts env0 sampleW planW).map pairKey).Nodup :=
  generate_forecasts_unique_keys env0 sampleW planW
    (by decide) (by decide) (by decide) (by decide) (by decide)

/-- Counterexample to C2 as stated: an actual row and a plan row sharing
`(L, 2020-01)` are concatenated, not merged, so the pair carries two
records. -/
theorem generate_forecasts_duplicate_pair :
    ((generate_forecasts env0 sampleW planC2).map pairKey).count
      ("L", ⟨2020, 1⟩) = 2 := by decide

/-- C8 (amended): the reconciled output is sorted by (entity, date)
ascending with entities in lexicographic string order (ties broken by
date), and is a permutation of the concatenated actual, plan and forecast
rows, independent of per-entity completion order. -/
theorem generate_forecasts_sorted_lex (env : FitEnv) (sample : List SampleRow)
    (plan : List PlanRow) :
    List.Sorted unified_le (generate_forecasts env sample plan) ∧
    (generate_forecasts env sample plan).Perm
      ((sample.map sampleToURow ++ plan.map planToURow) ++
        (unique_first (sample.map fun r => r.lineup)).flatMap
          (fun L => forecast_rows_for env sample L)) := by
  constructor
  · unfold generate_forecasts
    exact List.sorted_insertionSort unified_le _
  · unfold generate_forecasts
    exact List.perm_insertionSort unified_le _

/-- Counterexample to C8 as stated: with entity `B` inserted before entity
`A`, the output nevertheless starts with `A` — lexicographic order, not
insertion order of first appearance. -/
theorem generate_forecasts_not_insertion_order :
    unique_first (sampleBA.map fun r => r.lineup) = ["B", "A"] ∧
    ((generate_forecasts env0 sampleBA []).map (fun r => r.lineup)).head? =
      some "A" ∧
    ("A" : String) ≠ "B" := by
  refine ⟨by decide, by decide, by decide⟩

end Forecasting
